import Mathlib

/-!
Shallow embedding of the report-fetcher script
`local-sonarqube-setup/scripts/fetch_report.py` of the repository
`vishal-m1/test-sonar-integrations`, together with proofs about the
claims of its specification.

Modelling conventions:
  * JSON dictionaries become Lean structures; a field that the Python code
    reads with `dict.get` becomes an `Option` field (Python `None` = `none`).
  * The local filesystem is a function `String → Option (List String)`
    mapping a path to the list of its lines (already stripped of trailing
    newlines, as the script does with `rstrip` before using a line).
  * Python floats become `Rat`; the two float-only operations the script
    performs on them (`float(...)` parsing and `"%.1f"` style formatting)
    are passed in as explicit function parameters, since no claim depends
    on their numeric details.
  * Console output (a sequence of `print` calls) becomes a `List String`,
    one element per `print`.
-/

namespace FetchReport

/-- Model of checking that `pat` is an initial segment of `s`
(character lists). -/
def startsWithL : List Char → List Char → Bool
  | [], _ => true
  | _ :: _, [] => false
  | p :: ps, c :: cs => p == c && startsWithL ps cs

/-- Model of the Python substring test `pat in s` (character lists). -/
def containsSub (pat : List Char) : List Char → Bool
  | [] => startsWithL pat []
  | c :: r => startsWithL pat (c :: r) || containsSub pat r

/-- One left-to-right pass of Python `str.replace(pat, rep)` over a character
list.  The counter argument holds the number of characters of an already
matched (and already replaced) occurrence that remain to be consumed; scanning
for a new occurrence only happens when it is `0`.  This models the
non-overlapping left-to-right replacement Python performs, for the nonempty
patterns the script uses. -/
def replaceAllAux (pat rep : List Char) : List Char → Nat → List Char
  | [], _ => []
  | _ :: rest, k + 1 => replaceAllAux pat rep rest k
  | c :: rest, 0 =>
    if startsWithL pat (c :: rest) then
      rep ++ replaceAllAux pat rep rest (pat.length - 1)
    else
      c :: replaceAllAux pat rep rest 0

/-- Python `s.replace(pat, rep)` for a nonempty pattern: every
non-overlapping occurrence of `pat` in `s`, scanned left to right, is
replaced by `rep`. -/
def py_replace (s pat rep : String) : String :=
  String.mk (replaceAllAux pat.data rep.data s.data 0)

/-- fetch_report.py line 600: the issue's file path is computed as
`issue.get("component", "").replace(f"{project_key}:", "")`. -/
def strip_component (project_key component : String) : String :=
  py_replace component (project_key ++ ":") ""

/-- Python `line.rstrip` restricted to the newline character (fetch_report.py
line 101): drops every trailing newline from a line read by `readlines`. -/
def rstripNL (s : String) : String :=
  String.mk ((s.data.reverse.dropWhile (fun c => c == '\n')).reverse)

/-- One entry of a code-context window (fetch_report.py lines 99-103). -/
structure CtxLine where
  line : Nat
  code : String
  is_issue_line : Bool
deriving Repr, DecidableEq

/-- The three shapes the `codeContext` dictionary of a detailed issue can
take in the script: the literal empty dict `{}` assigned at line 604, the
error dict `{"error": msg}` returned by `get_code_context` on failure, and
the success dict returned at lines 105-111. -/
inductive CodeContext where
  | empty : CodeContext
  | err (msg : String) : CodeContext
  | ok (file : String) (issue_line : Nat) (context : List CtxLine)
      (start_line : Nat) (end_line : Nat) : CodeContext
deriving Repr, DecidableEq

/-- Path resolution of `get_code_context` (fetch_report.py lines 80-89):
first try the path under the fixture root `<project_root>/sample-project`,
then fall back to the path as given.  `root` stands for the fixture root,
`fs` for the readable files of the local filesystem. -/
def resolve (root : String) (fs : String → Option (List String))
    (file_path : String) : Option (List String) :=
  match fs (root ++ "/" ++ file_path) with
  | some ls => some ls
  | none => fs file_path

/-- fetch_report.py lines 76-113, `get_code_context`: load a window of
`context_lines` lines before and after the 1-based `line_number`, clipped to
the file bounds.  `start_line = max(0, line_number - context_lines - 1)` is
truncated `Nat` subtraction here, and the `for i in range(start_line,
end_line)` loop is `List.range' start_line (end_line - start_line)`. -/
def get_code_context (root : String) (fs : String → Option (List String))
    (file_path : String) (line_number : Nat)
    (context_lines : Nat := 3) : CodeContext :=
  match resolve root fs file_path with
  | none => CodeContext.err ("File not found: " ++ file_path)
  | some lines =>
    let start_line := line_number - context_lines - 1
    let end_line := min lines.length (line_number + context_lines)
    let context := (List.range' start_line (end_line - start_line)).map
      (fun i => CtxLine.mk (i + 1) (rstripNL (lines.getD i ""))
        (i + 1 == line_number))
    CodeContext.ok file_path line_number context (start_line + 1) end_line

/-- A raw issue entry of the issues-search response, with exactly the keys
`main` reads from it; `none` models both an absent key and a JSON null. -/
structure RawIssue where
  key : Option String := none
  rule : Option String := none
  severity : Option String := none
  type : Option String := none
  component : Option String := none
  line : Option Nat := none
  message : Option String := none
  effort : Option String := none
  tags : List String := []
deriving Repr, DecidableEq

/-- Python truthiness of the optional `line` value (`None` and `0` are
falsy). -/
def truthyLine : Option Nat → Bool
  | some n => n != 0
  | none => false

/-- One element of the `detailed` list built at fetch_report.py lines
608-620 (the pass-through `textRange`/`tags` fields are kept as the raw
values). -/
structure IssueDetail where
  key : Option String
  rule : Option String
  severity : String
  type : Option String
  component : String
  line : Option Nat
  message : Option String
  effort : Option String
  tags : List String
  codeContext : CodeContext
deriving Repr, DecidableEq

/-- The per-issue body of the loop at fetch_report.py lines 595-621:
severity defaulting, component prefix stripping, conditional context
loading (`if line_number and component:`), and assembly of the detailed
record. -/
def processIssue (root : String) (fs : String → Option (List String))
    (project_key : String) (issue : RawIssue) : IssueDetail :=
  let severity := issue.severity.getD "UNKNOWN"
  let component := strip_component project_key (issue.component.getD "")
  let line_number := issue.line
  let code_context : CodeContext :=
    match line_number with
    | some n =>
      if n != 0 && component != "" then get_code_context root fs component n
      else CodeContext.empty
    | none => CodeContext.empty
  { key := issue.key, rule := issue.rule, severity := severity,
    type := issue.type, component := component, line := line_number,
    message := issue.message, effort := issue.effort, tags := issue.tags,
    codeContext := code_context }

/-- `severity_counts[severity] = severity_counts.get(severity, 0) + 1`
on a dictionary modelled as an association list with unique keys. -/
def bumpCount : List (String × Nat) → String → List (String × Nat)
  | [], s => [(s, 1)]
  | (k, v) :: rest, s =>
    if k == s then (k, v + 1) :: rest else (k, v) :: bumpCount rest s

/-- The issue loop of fetch_report.py lines 592-621: one pass over the raw
issues accumulating the severity-count dictionary and the detailed list. -/
def issues_fold (root : String) (fs : String → Option (List String))
    (project_key : String) (raw : List RawIssue) :
    List (String × Nat) × List IssueDetail :=
  raw.foldl
    (fun acc issue =>
      (bumpCount acc.1 (issue.severity.getD "UNKNOWN"),
        acc.2 ++ [processIssue root fs project_key issue]))
    ([], [])

/-- The `issues` record assembled at fetch_report.py lines 623-627. -/
structure IssueSet where
  total : Nat
  severity_counts : List (String × Nat)
  detailed : List IssueDetail
deriving Repr, DecidableEq

/-- fetch_report.py lines 592-627 as one function from the raw page to the
`issues` record. -/
def build_issue_set (root : String) (fs : String → Option (List String))
    (project_key : String) (total : Nat) (raw : List RawIssue) : IssueSet :=
  let p := issues_fold root fs project_key raw
  { total := total, severity_counts := p.1, detailed := p.2 }

/-- One entry of the `component.measures` array of the measures response. -/
structure Measure where
  metric : Option String := none
  value : Option String := none
deriving Repr, DecidableEq

/-- fetch_report.py lines 64-73, `extract_metric_value`: scan the measures
for the first entry whose `metric` equals the key; return `float(value)` for
a truthy value string, `0.0` for a falsy one, and `0.0` when the scan finds
nothing or `float` raises (the surrounding `try` swallows the exception and
falls through to `return 0.0`).  `pf` models Python `float` parsing: `none`
means `float` raises. -/
def extract_metric_value (pf : String → Option Rat) :
    List Measure → String → Rat
  | [], _ => 0
  | m :: rest, key =>
    if m.metric == some key then
      match m.value with
      | none => 0
      | some v => if v == "" then 0 else (pf v).getD 0
    else extract_metric_value pf rest key

/-- Python `int(...)` on a rational value: truncation toward zero, which is
exactly `Int` T-division of numerator by denominator. -/
def py_int (q : Rat) : Int :=
  q.num / (q.den : Int)

/-- The `measures` record assembled at fetch_report.py lines 583-589. -/
structure Measures where
  coverage : Rat
  bugs : Int
  vulnerabilities : Int
  code_smells : Int
  duplicated_lines_density : Rat
deriving Repr, DecidableEq

/-- fetch_report.py lines 583-589: the five-field measures record, with
integer casts on the three count metrics. -/
def build_measures (pf : String → Option Rat) (ms : List Measure) : Measures :=
  { coverage := extract_metric_value pf ms "coverage",
    bugs := py_int (extract_metric_value pf ms "bugs"),
    vulnerabilities := py_int (extract_metric_value pf ms "vulnerabilities"),
    code_smells := py_int (extract_metric_value pf ms "code_smells"),
    duplicated_lines_density :=
      extract_metric_value pf ms "duplicated_lines_density" }

/-- The report model consumed by the renderers (fetch_report.py lines
630-639; the timestamp and the opaque quality-gate conditions pass-through
are not modelled, no renderer claim depends on them). -/
structure Report where
  project_key : String
  quality_gate_status : String
  measures : Measures
  issues : IssueSet
deriving Repr, DecidableEq

/-- Python `dict.get(key, 0)` on the severity-count association list. -/
def dictGet : List (String × Nat) → String → Nat
  | [], _ => 0
  | (k, v) :: rest, s => if k == s then v else dictGet rest s

/-- The fixed severity iteration order of both textual summaries
(fetch_report.py lines 444 and 470). -/
def severityOrder : List String :=
  ["BLOCKER", "CRITICAL", "MAJOR", "MINOR", "INFO"]

/- The ANSI color constants of the `Colors` class. -/
namespace Colors

def GREEN : String := "\x1b[92m"

def RED : String := "\x1b[91m"

def YELLOW : String := "\x1b[93m"

def BLUE : String := "\x1b[94m"

def RESET : String := "\x1b[0m"

def BOLD : String := "\x1b[1m"

end Colors

/-- Python `"c" * n`. -/
def repChar (n : Nat) (c : Char) : String :=
  String.mk (List.replicate n c)

/-- The status-glyph dictionary lookup of `print_slack_summary`
(fetch_report.py lines 427-432). -/
def status_emoji (s : String) : String :=
  if s == "OK" then "✅"
  else if s == "ERROR" then "❌"
  else if s == "WARN" then "⚠️"
  else if s == "NONE" then "⚪"
  else "❓"

/-- fetch_report.py lines 421-448, `print_slack_summary`, as the list of
printed lines.  `ffmt` models the Python `"%.1f"`-style float formatting of
the two percentage metrics. -/
def print_slack_summary (ffmt : Rat → String) (r : Report) : List String :=
  [ "\n" ++ repChar 60 '=',
    "📱 SLACK-FORMATTED SUMMARY",
    repChar 60 '=',
    status_emoji r.quality_gate_status ++ " *Quality Gate Status:* " ++
      r.quality_gate_status,
    "📊 *Coverage:* " ++ ffmt r.measures.coverage ++ "%",
    "🐛 *Bugs:* " ++ toString r.measures.bugs,
    "🔒 *Vulnerabilities:* " ++ toString r.measures.vulnerabilities,
    "💨 *Code Smells:* " ++ toString r.measures.code_smells,
    "📋 *Duplicated Lines:* " ++ ffmt r.measures.duplicated_lines_density ++
      "%",
    "\n*Issues by Severity:*" ]
  ++ severityOrder.filterMap (fun s =>
      let count := dictGet r.issues.severity_counts s
      if count > 0 then some ("  • " ++ s ++ ": " ++ toString count)
      else none)
  ++ [ repChar 60 '=' ++ "\n" ]

/-- fetch_report.py lines 451-473, `print_email_summary`, as the list of
printed lines; `now` models the `datetime.now()` timestamp string.  Note
the severity loop at lines 470-472 has no non-zero filter: all five
severities are printed. -/
def print_email_summary (ffmt : Rat → String) (now : String) (r : Report) :
    List String :=
  [ "\n" ++ repChar 60 '=',
    "📧 EMAIL-FORMATTED SUMMARY",
    repChar 60 '=',
    "Quality Gate Status: " ++ r.quality_gate_status,
    "Project: " ++ r.project_key,
    "Generated: " ++ now,
    "\nMetrics:",
    "  - Coverage: " ++ ffmt r.measures.coverage ++ "%",
    "  - Bugs: " ++ toString r.measures.bugs,
    "  - Vulnerabilities: " ++ toString r.measures.vulnerabilities,
    "  - Code Smells: " ++ toString r.measures.code_smells,
    "  - Duplicated Lines: " ++ ffmt r.measures.duplicated_lines_density ++
      "%",
    "\nIssues by Severity:" ]
  ++ severityOrder.map (fun s =>
      "  - " ++ s ++ ": " ++ toString (dictGet r.issues.severity_counts s))
  ++ [ repChar 60 '=' ++ "\n" ]

/-- The severity-to-color dictionary lookup of `print_detailed_issues`
(fetch_report.py lines 497-504). -/
def severity_color (s : String) : String :=
  if s == "BLOCKER" then Colors.RED
  else if s == "CRITICAL" then Colors.RED
  else if s == "MAJOR" then Colors.YELLOW
  else if s == "MINOR" then Colors.BLUE
  else if s == "INFO" then Colors.BLUE
  else Colors.RESET

/-- Rendering of the optional `line` value in an f-string: the detailed
dict always carries the key, so `issue.get("line", "N/A")` yields the
stored value, and Python prints `None` for a null. -/
def pyOptNat : Option Nat → String
  | some n => toString n
  | none => "None"

/-- Rendering of an optional string field in an f-string (the stored value
is printed; a stored null prints as `None`). -/
def pyOptStr : Option String → String
  | some s => s
  | none => "None"

/-- Python `"%4d"`-style right alignment used by `{line_num:4d}`. -/
def pad4 (n : Nat) : String :=
  let s := toString n
  if s.length < 4 then String.mk (List.replicate (4 - s.length) ' ') ++ s
  else s

/-- The code-context part of one detailed-issue console block
(fetch_report.py lines 512-527): the window for a success record, a warning
line for a truthy error value, nothing otherwise (in particular nothing for
the empty dict). -/
def context_block (cc : CodeContext) : List String :=
  match cc with
  | CodeContext.ok _ _ ctx s e =>
    [ "\n  Code Context (lines " ++ toString s ++ "-" ++ toString e ++ "):",
      "  " ++ repChar 76 '-' ]
    ++ ctx.map (fun t =>
        if t.is_issue_line then
          "  " ++ Colors.RED ++ ">>>" ++ Colors.RESET ++ " " ++
            pad4 t.line ++ " | " ++ t.code
        else
          "     " ++ pad4 t.line ++ " | " ++ t.code)
    ++ [ "  " ++ repChar 76 '-' ]
  | CodeContext.err m =>
    if m != "" then
      [ "  " ++ Colors.YELLOW ++ "⚠️  Could not load code context: " ++ m ++
          Colors.RESET ]
    else []
  | CodeContext.empty => []

/-- One issue's block of `print_detailed_issues` (fetch_report.py lines
488-529), as the list of printed lines; `idx` is the 1-based enumeration
index. -/
def print_issue_block (idx : Nat) (issue : IssueDetail) : List String :=
  let color := severity_color issue.severity
  [ "\n" ++ color ++ "[" ++ issue.severity ++ "]" ++ Colors.RESET ++
      " Issue #" ++ toString idx,
    "  File: " ++ issue.component,
    "  Line: " ++ pyOptNat issue.line,
    "  Rule: " ++ pyOptStr issue.rule,
    "  Message: " ++ pyOptStr issue.message ]
  ++ context_block issue.codeContext
  ++ [ "" ]

/-- fetch_report.py lines 476-531, `print_detailed_issues`: nothing for an
empty detailed list, otherwise header, one block per issue enumerated from
1, and a footer. -/
def print_detailed_issues (iss : IssueSet) : List String :=
  if iss.detailed.isEmpty then []
  else
    [ "\n" ++ repChar 80 '=',
      "📋 DETAILED ISSUES WITH CODE CONTEXT",
      repChar 80 '=' ]
    ++ (iss.detailed.mapIdx (fun i issue => print_issue_block (i + 1) issue)).flatten
    ++ [ repChar 80 '=' ++ "\n" ]

/-- Python `str.lower` (used for the severity CSS class at fetch_report.py
line 366), character by character. -/
def py_lower (s : String) : String :=
  String.mk (s.data.map Char.toLower)

/-- fetch_report.py line 392: the chained
`.replace(amp, amp-entity).replace(lt, lt-entity).replace(gt, gt-entity)`
escaping applied to code-context lines (and to nothing else) in the HTML
renderer. -/
def escape_html (s : String) : String :=
  py_replace (py_replace (py_replace s "&" "&amp;") "<" "&lt;") ">" "&gt;"

/-- One code line of the HTML code block (fetch_report.py lines 390-399). -/
def html_code_line (t : CtxLine) : String :=
  let line_class := if t.is_issue_line then "issue-line" else ""
  "\n                    <div class=\"code-line\">\n                        <span class=\"line-number "
    ++ line_class ++ "\">" ++ toString t.line
    ++ "</span>\n                        <span class=\"code-content "
    ++ line_class ++ "\">" ++ escape_html t.code
    ++ "</span>\n                    </div>"

/-- One issue's fragment of the detailed-issues section of
`generate_html_report` (fetch_report.py lines 364-404).  The message, rule,
component and severity are interpolated as-is; only the code-context lines
go through `escape_html`.  The code block is emitted exactly for the
success form of `codeContext`. -/
def html_issue_detail (issue : IssueDetail) : String :=
  let severity := issue.severity
  let severity_class := "severity-" ++ py_lower severity
  "\n            <div class=\"issue-detail\">\n                <div class=\"issue-header\">\n                    <span class=\"issue-severity "
    ++ severity_class ++ "\">" ++ severity
    ++ "</span>\n                    <span class=\"issue-file\">"
    ++ issue.component ++ ":" ++ pyOptNat issue.line
    ++ "</span>\n                </div>\n                <div class=\"issue-message\">\n                    <strong>"
    ++ pyOptStr issue.message
    ++ "</strong>\n                </div>\n                <div class=\"issue-meta\">\n                    Rule: "
    ++ pyOptStr issue.rule ++ " | Effort: " ++ pyOptStr issue.effort
    ++ "\n                </div>"
  ++ (match issue.codeContext with
      | CodeContext.ok _ _ ctx _ _ =>
        "\n                <div class=\"code-block\">"
          ++ String.join (ctx.map html_code_line)
          ++ "\n                </div>"
      | _ => "")
  ++ "\n            </div>"

/-- The whole detailed-issues section of the HTML document: the
concatenation of the per-issue fragments, in order (fetch_report.py lines
363-404); it is embedded verbatim between the static parts of the
document. -/
def html_detailed_section (detailed : List IssueDetail) : String :=
  String.join (detailed.map html_issue_detail)

/-- Outcome of the configuration-resolution phase of `main`. -/
inductive ConfigResult where
  | exit (code : Nat) : ConfigResult
  | proceed (project_key : String) : ConfigResult
deriving Repr, DecidableEq

/-- fetch_report.py lines 544-558: `--project` is declared with
`required=True`, so when the flag is absent argparse itself terminates the
process with status 2 (its standard behavior for a missing required
argument) before `main`'s own check can run; when the flag is present,
`project_key = args.project or os.getenv("SONAR_PROJECT_KEY")` (an empty
flag value falls back to the environment variable), and a still-falsy key
reaches `sys.exit(1)`.  `flag` is the `--project` value (`none` = flag not
given), `env` the `SONAR_PROJECT_KEY` value. -/
def resolve_project_key (flag : Option String) (env : Option String) :
    ConfigResult :=
  match flag with
  | none => ConfigResult.exit 2
  | some p =>
    let pk := if p == "" then env else some p
    match pk with
    | none => ConfigResult.exit 1
    | some k => if k == "" then ConfigResult.exit 1 else ConfigResult.proceed k

/-- Whether a `codeContext` value is the success form. -/
def isSuccess : CodeContext → Bool
  | CodeContext.ok _ _ _ _ _ => true
  | _ => false

/-- Whether a `codeContext` value is the error form. -/
def isErrorForm : CodeContext → Bool
  | CodeContext.err _ => true
  | _ => false

/-! Helper lemmas about the `str.replace` model. -/

theorem startsWithL_append_self (pat s : List Char) :
    startsWithL pat (pat ++ s) = true := by
  induction pat with
  | nil => rfl
  | cons p ps ih => simp [startsWithL, ih]

theorem replaceAllAux_skip (pat rep : List Char) (t s : List Char) :
    replaceAllAux pat rep (t ++ s) t.length = replaceAllAux pat rep s 0 := by
  induction t with
  | nil => rfl
  | cons c t ih => simpa [replaceAllAux] using ih

theorem replaceAllAux_head_match (pat rep s : List Char) (hp : pat ≠ []) :
    replaceAllAux pat rep (pat ++ s) 0 = rep ++ replaceAllAux pat rep s 0 := by
  match pat, hp with
  | p :: ps, _ =>
    rw [List.cons_append]
    have hs : startsWithL (p :: ps) (p :: (ps ++ s)) = true := by
      simpa using startsWithL_append_self (p :: ps) s
    simp only [replaceAllAux, hs, if_true, List.length_cons,
      Nat.add_sub_cancel]
    rw [replaceAllAux_skip]

theorem replaceAllAux_no_occur (pat rep s : List Char)
    (h : containsSub pat s = false) :
    replaceAllAux pat rep s 0 = s := by
  induction s with
  | nil => rfl
  | cons c r ih =>
    rw [containsSub] at h
    rw [Bool.or_eq_false_iff] at h
    simp [replaceAllAux, h.1, ih h.2]

/-- C5 counterexample: with project key `a` and raw component
`a:src/a:b.py`, line 600's `replace` removes the later occurrence of `a:`
as well, producing `src/b.py` instead of the `src/a:b.py` the claim
requires. -/
theorem strip_component_counterexample :
    strip_component "a" "a:src/a:b.py" = "src/b.py" ∧
    strip_component "a" "a:src/a:b.py" ≠ "src/a:b.py" := by
  constructor
  · rfl
  · decide

/-- C5 (amended): the issue's file path is the raw component string with
every occurrence of the substring `<projectKey>:` removed by a left-to-right
scan, so the leading-prefix form of the claim holds exactly when the
substring does not occur again after the leading prefix: under that
hypothesis the path is the component with the leading `<projectKey>:`
stripped and the remainder unchanged. -/
theorem strip_component_strips_leading (pk rest : String)
    (h : containsSub (pk ++ ":").data rest.data = false) :
    strip_component pk ((pk ++ ":") ++ rest) = rest := by
  unfold strip_component py_replace
  have hdata : ((pk ++ ":") ++ rest).data = (pk ++ ":").data ++ rest.data := rfl
  rw [hdata]
  have hp : (pk ++ ":").data ≠ [] := by
    have : (pk ++ ":").data = pk.data ++ [':'] := rfl
    simp [this]
  rw [replaceAllAux_head_match _ _ _ hp]
  rw [replaceAllAux_no_occur _ _ _ h]
  rfl

/-- Witness for the amended C5 theorem at a concrete component. -/
theorem strip_component_strips_leading_witness :
    strip_component "demo" (("demo" ++ ":") ++ "src/a.py") = "src/a.py" :=
  strip_component_strips_leading "demo" "src/a.py" (by decide)

/-- C7 (code-bug evidence): with `--project` absent, argparse (because the
flag is declared `required=True`) terminates the run with exit status 2, not
the claimed 1, and never consults `SONAR_PROJECT_KEY`; the script's own
exit-1 check is reachable only when the flag is passed with a falsy (empty)
value. -/
theorem project_key_unresolvable_exit :
    resolve_project_key none none = ConfigResult.exit 2 ∧
    resolve_project_key (some "") none = ConfigResult.exit 1 := by
  constructor <;> rfl

set_option maxRecDepth 20000 in
/-- C1 (code-bug evidence): for an issue whose message is
`<script>alert(1)</script>`, the detailed-issue fragment the HTML renderer
emits contains the literal `<script>` tag and does not contain the escaped
text `&lt;script&gt;`: line 380 interpolates the raw message, only
code-context lines go through the escaping of line 392. -/
theorem html_message_not_escaped :
    containsSub "<script>".data
      (html_issue_detail (processIssue "r" (fun _ => none) "pk"
        { component := some "pk:f.py", severity := some "MAJOR",
          message := some "<script>alert(1)</script>" })).data = true ∧
    containsSub "&lt;script&gt;".data
      (html_issue_detail (processIssue "r" (fun _ => none) "pk"
        { component := some "pk:f.py", severity := some "MAJOR",
          message := some "<script>alert(1)</script>" })).data = false := by
  constructor <;> decide

/-- C4: when no measures entry matches the requested key, or every matching
entry's value is absent, empty or unparseable, `extract_metric_value`
returns 0.0, and the integer cast applied to it for the count metrics
returns 0; the function is total, so no exception escapes. -/
theorem extract_metric_value_defaults (pf : String → Option Rat)
    (measures : List Measure) (key : String)
    (h : ∀ m ∈ measures, m.metric = some key →
      m.value = none ∨ m.value = some "" ∨
        ∃ v, m.value = some v ∧ pf v = none) :
    extract_metric_value pf measures key = 0 ∧
    py_int (extract_metric_value pf measures key) = 0 := by
  have h0 : ∀ ms : List Measure,
      (∀ m ∈ ms, m.metric = some key →
        m.value = none ∨ m.value = some "" ∨
          ∃ v, m.value = some v ∧ pf v = none) →
      extract_metric_value pf ms key = 0 := by
    intro ms
    induction ms with
    | nil => intro _; rfl
    | cons m rest ih =>
      intro hh
      by_cases hm : m.metric = some key
      · rcases hh m (List.mem_cons_self m rest) hm with hv | hv | ⟨v, hv, hpf⟩
        · simp [extract_metric_value, hm, hv]
        · simp [extract_metric_value, hm, hv]
        · simp [extract_metric_value, hm, hv, hpf]
      · have hrest := ih (fun m' hm' hk => hh m' (List.mem_cons_of_mem m hm') hk)
        simp [extract_metric_value, hm, hrest]
  exact ⟨h0 measures h, by rw [h0 measures h]; rfl⟩

/-- Witness for C4 at a concrete measures list whose only matching entry has
no value. -/
theorem extract_metric_value_defaults_witness :
    extract_metric_value (fun _ => none)
      [{ metric := some "coverage", value := none }] "coverage" = 0 ∧
    py_int (extract_metric_value (fun _ => none)
      [{ metric := some "coverage", value := none }] "coverage") = 0 :=
  extract_metric_value_defaults (fun _ => none) _ "coverage" (by
    intro m hm _
    rw [List.mem_singleton] at hm
    subst hm
    exact Or.inl rfl)

/-! Helper lemmas for the severity-count invariant. -/

theorem sum_bumpCount (l : List (String × Nat)) (s : String) :
    ((bumpCount l s).map Prod.snd).sum = (l.map Prod.snd).sum + 1 := by
  induction l with
  | nil => rfl
  | cons kv rest ih =>
    obtain ⟨k, v⟩ := kv
    cases hk : (k == s) with
    | true => simp [bumpCount, hk]; omega
    | false => simp [bumpCount, hk, ih]; omega

theorem issues_fold_general (root : String)
    (fs : String → Option (List String)) (pk : String) :
    ∀ (raw : List RawIssue) (acc : List (String × Nat) × List IssueDetail),
      (((raw.foldl (fun acc issue =>
          (bumpCount acc.1 (issue.severity.getD "UNKNOWN"),
            acc.2 ++ [processIssue root fs pk issue])) acc)).1.map
        Prod.snd).sum = (acc.1.map Prod.snd).sum + raw.length ∧
      ((raw.foldl (fun acc issue =>
          (bumpCount acc.1 (issue.severity.getD "UNKNOWN"),
            acc.2 ++ [processIssue root fs pk issue])) acc)).2.length =
        acc.2.length + raw.length := by
  intro raw
  induction raw with
  | nil => intro acc; simp
  | cons i rest ih =>
    intro acc
    simp only [List.foldl_cons]
    obtain ⟨h1, h2⟩ := ih
      (bumpCount acc.1 (i.severity.getD "UNKNOWN"),
        acc.2 ++ [processIssue root fs pk i])
    constructor
    · rw [h1]
      simp [sum_bumpCount]
      omega
    · rw [h2]
      simp
      omega

/-- C2: the aggregation loop of `main` increments exactly one severity
bucket and appends exactly one detailed record per enumerated issue, so the
severity counts of the produced issue set sum to the number of issues of
the fetched page, and that number is also the length of the detailed
list. -/
theorem severity_counts_sum_eq (root : String)
    (fs : String → Option (List String)) (pk : String) (total : Nat)
    (raw : List RawIssue) :
    (((build_issue_set root fs pk total raw).severity_counts).map
      Prod.snd).sum = raw.length ∧
    (build_issue_set root fs pk total raw).detailed.length = raw.length := by
  have h := issues_fold_general root fs pk raw ([], [])
  simpa [build_issue_set, issues_fold] using h

/-! Helper lemma for the context-window claims: how many entries of an
integer range hit the issue line. -/

theorem countP_range' (L a n : Nat) :
    (List.range' a n).countP (fun i => i + 1 == L) =
      if a + 1 ≤ L ∧ L ≤ a + n then 1 else 0 := by
  induction n generalizing a with
  | zero =>
    rw [if_neg (by omega)]
    rfl
  | succ n ih =>
    rw [List.range'_succ, List.countP_cons, ih (a + 1)]
    by_cases h : a + 1 = L
    · have hb : (a + 1 == L) = true := by simpa using h
      rw [hb]
      simp only [if_true]
      rw [if_neg (by omega), if_pos (by omega)]
    · have hb : (a + 1 == L) = false := by simpa using h
      rw [hb]
      simp only [Bool.false_eq_true, if_false, Nat.add_zero]
      split_ifs <;> omega

/-- C3: for a resolvable file with `N` lines and a target line `L` with
`1 <= L <= N`, `get_code_context` returns the success window with
`start_line >= 1`, `end_line <= N`, exactly one entry flagged as the issue
line, that entry's number equal to `L`, and the window equal to 3 lines
before and after `L` clipped to the file bounds. -/
theorem get_code_context_window (root : String)
    (fs : String → Option (List String)) (p : String) (L N : Nat)
    (lines : List String) (hres : resolve root fs p = some lines)
    (hN : lines.length = N) (h1 : 1 ≤ L) (h2 : L ≤ N) :
    ∃ ctx s e,
      get_code_context root fs p L = CodeContext.ok p L ctx s e ∧
      1 ≤ s ∧ e ≤ N ∧
      ctx.countP (fun t => t.is_issue_line) = 1 ∧
      (∀ t ∈ ctx, t.is_issue_line = true → t.line = L) ∧
      s = max 1 (L - 3) ∧ e = min N (L + 3) := by
  have hg : get_code_context root fs p L =
      CodeContext.ok p L
        ((List.range' (L - 3 - 1) (min lines.length (L + 3) - (L - 3 - 1))).map
          (fun i => CtxLine.mk (i + 1) (rstripNL (lines.getD i ""))
            (i + 1 == L)))
        (L - 3 - 1 + 1) (min lines.length (L + 3)) := by
    unfold get_code_context
    rw [hres]
  refine ⟨_, _, _, hg, by omega, by omega, ?_, ?_, by omega, by omega⟩
  · rw [List.countP_map]
    have hcomp : ((fun t : CtxLine => t.is_issue_line) ∘
        (fun i => CtxLine.mk (i + 1) (rstripNL (lines.getD i ""))
          (i + 1 == L))) = fun i => i + 1 == L := rfl
    rw [hcomp, countP_range', if_pos (by omega)]
  · intro t ht hiss
    rw [List.mem_map] at ht
    obtain ⟨i, _, rfl⟩ := ht
    have : i + 1 = L := by simpa using hiss
    simpa using this

/-- Witness for C3 at a concrete five-line file and target line 2. -/
theorem get_code_context_window_witness :
    ∃ ctx s e,
      get_code_context "r"
        (fun q => if q == "r/f.py" then some ["a", "b", "c", "d", "e"]
          else none) "f.py" 2 = CodeContext.ok "f.py" 2 ctx s e ∧
      1 ≤ s ∧ e ≤ 5 ∧
      ctx.countP (fun t => t.is_issue_line) = 1 ∧
      (∀ t ∈ ctx, t.is_issue_line = true → t.line = 2) ∧
      s = max 1 (2 - 3) ∧ e = min 5 (2 + 3) :=
  get_code_context_window "r"
    (fun q => if q == "r/f.py" then some ["a", "b", "c", "d", "e"] else none)
    "f.py" 2 5 ["a", "b", "c", "d", "e"] rfl rfl (by decide) (by decide)

/-- C9: for a resolvable file with `N` lines and a target line `L > N`,
`get_code_context` still returns the success form, every window entry is
flagged `is_issue_line = false`, and once `L > N + 3` the window is empty
while the reported bounds describe the clipped, inverted range
`(L - 3, N)`. -/
theorem get_code_context_beyond_eof (root : String)
    (fs : String → Option (List String)) (p : String) (L N : Nat)
    (lines : List String) (hres : resolve root fs p = some lines)
    (hN : lines.length = N) (hL : N < L) :
    ∃ ctx s e,
      get_code_context root fs p L = CodeContext.ok p L ctx s e ∧
      (∀ t ∈ ctx, t.is_issue_line = false) ∧
      (N + 3 < L → ctx = [] ∧ s = L - 3 ∧ e = N) := by
  have hg : get_code_context root fs p L =
      CodeContext.ok p L
        ((List.range' (L - 3 - 1) (min lines.length (L + 3) - (L - 3 - 1))).map
          (fun i => CtxLine.mk (i + 1) (rstripNL (lines.getD i ""))
            (i + 1 == L)))
        (L - 3 - 1 + 1) (min lines.length (L + 3)) := by
    unfold get_code_context
    rw [hres]
  refine ⟨_, _, _, hg, ?_, ?_⟩
  · intro t ht
    rw [List.mem_map] at ht
    obtain ⟨i, hi, rfl⟩ := ht
    rw [List.mem_range'_1] at hi
    have hne : i + 1 ≠ L := by omega
    simpa using hne
  · intro hL3
    refine ⟨?_, by omega, by omega⟩
    have hz : min lines.length (L + 3) - (L - 3 - 1) = 0 := by omega
    rw [hz]
    rfl

/-- Witness for C9 at a concrete two-line file and target line 7. -/
theorem get_code_context_beyond_eof_witness :
    ∃ ctx s e,
      get_code_context "r"
        (fun q => if q == "r/f.py" then some ["a", "b"] else none)
        "f.py" 7 = CodeContext.ok "f.py" 7 ctx s e ∧
      (∀ t ∈ ctx, t.is_issue_line = false) ∧
      (2 + 3 < 7 → ctx = [] ∧ s = 7 - 3 ∧ e = 2) :=
  get_code_context_beyond_eof "r"
    (fun q => if q == "r/f.py" then some ["a", "b"] else none)
    "f.py" 7 2 ["a", "b"] rfl rfl (by decide)

/-- C6 counterexample: an issue without a line number gets the literal
empty dict as its `codeContext` (fetch_report.py line 604), which is not
the error form the claim requires for that case. -/
theorem codeContext_no_line_counterexample :
    isErrorForm (processIssue "r" (fun _ => none) "demo"
      { component := some "demo:src/b.py", severity := some "MINOR",
        message := some "m" }).codeContext = false ∧
    (processIssue "r" (fun _ => none) "demo"
      { component := some "demo:src/b.py", severity := some "MINOR",
        message := some "m" }).codeContext = CodeContext.empty := by
  constructor <;> rfl

/-- C6 (amended): `codeContext` is the success form only when the issue has
a truthy line number, the stripped component is non-empty and the file
resolves on disk; when the line number is missing or zero, or the stripped
component is empty, it is the empty record (not the error form); only when
line and component are truthy but the file is unresolvable is it the error
form `File not found: <path>`. -/
theorem codeContext_form (root : String)
    (fs : String → Option (List String)) (pk : String) (issue : RawIssue) :
    ((truthyLine issue.line = false ∨
        strip_component pk (issue.component.getD "") = "") →
      (processIssue root fs pk issue).codeContext = CodeContext.empty) ∧
    (∀ n, issue.line = some n → n ≠ 0 →
      strip_component pk (issue.component.getD "") ≠ "" →
      resolve root fs (strip_component pk (issue.component.getD "")) = none →
      (processIssue root fs pk issue).codeContext =
        CodeContext.err ("File not found: " ++
          strip_component pk (issue.component.getD ""))) ∧
    (∀ n lines, issue.line = some n → n ≠ 0 →
      strip_component pk (issue.component.getD "") ≠ "" →
      resolve root fs (strip_component pk (issue.component.getD ""))
        = some lines →
      isSuccess (processIssue root fs pk issue).codeContext = true) := by
  refine ⟨?_, ?_, ?_⟩
  · intro h
    cases hl : issue.line with
    | none => simp [processIssue, hl]
    | some n =>
      rcases h with h | h
      · rw [hl] at h
        simp only [truthyLine, bne_eq_false_iff_eq] at h
        simp [processIssue, hl, h]
      · simp [processIssue, hl, h]
  · intro n hl hn hc hres
    have hcc : get_code_context root fs
        (strip_component pk (issue.component.getD "")) n =
        CodeContext.err ("File not found: " ++
          strip_component pk (issue.component.getD "")) := by
      unfold get_code_context
      rw [hres]
    simp [processIssue, hl, hn, hc, hcc]
  · intro n lines hl hn hc hres
    have hcc : isSuccess (get_code_context root fs
        (strip_component pk (issue.component.getD "")) n) = true := by
      unfold get_code_context
      rw [hres]
      rfl
    simp [processIssue, hl, hn, hc, hcc]

/-- Witness for the amended C6 theorem: an issue with a line number whose
file is not on disk gets the `File not found` error form. -/
theorem codeContext_form_witness :
    (processIssue "r" (fun _ => none) "demo"
      { component := some "demo:src/a.py", line := some 5,
        severity := some "BLOCKER" }).codeContext =
      CodeContext.err ("File not found: " ++
        strip_component "demo"
          ((some "demo:src/a.py" : Option String).getD "")) :=
  (codeContext_form "r" (fun _ => none) "demo"
    { component := some "demo:src/a.py", line := some 5,
      severity := some "BLOCKER" }).2.1 5 rfl (by decide) (by decide) rfl

/-- C10: an issue processed without a line number carries the empty
`codeContext`, and its detailed-console block is exactly the severity,
file, line, rule and message lines followed by the blank separator: no
code-context block and no context-loading warning is emitted. -/
theorem print_issue_block_no_context (root : String)
    (fs : String → Option (List String)) (pk : String) (idx : Nat)
    (raw : RawIssue) (h : raw.line = none) :
    print_issue_block idx (processIssue root fs pk raw) =
      [ "\n" ++ severity_color (raw.severity.getD "UNKNOWN") ++ "[" ++
          raw.severity.getD "UNKNOWN" ++ "]" ++ Colors.RESET ++
          " Issue #" ++ toString idx,
        "  File: " ++ strip_component pk (raw.component.getD ""),
        "  Line: None",
        "  Rule: " ++ pyOptStr raw.rule,
        "  Message: " ++ pyOptStr raw.message,
        "" ] := by
  simp [processIssue, h, print_issue_block, context_block, pyOptNat]

/-- Witness for C10 at a concrete no-line issue. -/
theorem print_issue_block_no_context_witness :
    print_issue_block 1 (processIssue "r" (fun _ => none) "pk"
      { severity := some "INFO", component := some "pk:x.py",
        rule := some "rule1", message := some "msg" }) =
      [ "\n" ++ severity_color "INFO" ++ "[INFO]" ++ Colors.RESET ++
          " Issue #1",
        "  File: x.py", "  Line: None", "  Rule: rule1",
        "  Message: msg", "" ] := by
  rw [print_issue_block_no_context "r" (fun _ => none) "pk" 1
    { severity := some "INFO", component := some "pk:x.py",
      rule := some "rule1", message := some "msg" } rfl]
  decide

/-- C8 counterexample: for a report whose BLOCKER count is zero, the
email-style summary still prints the BLOCKER line with count 0
(fetch_report.py lines 470-472 have no non-zero filter), contradicting the
claim that zero-count severities are omitted from both summaries. -/
theorem email_prints_zero_severities :
    "  - BLOCKER: 0" ∈ print_email_summary (fun _ => "0.0") "ts"
      { project_key := "demo", quality_gate_status := "OK",
        measures := { coverage := 0, bugs := 0, vulnerabilities := 0,
                      code_smells := 0, duplicated_lines_density := 0 },
        issues := { total := 0, severity_counts := [], detailed := [] } } := by
  simp [print_email_summary, severityOrder, dictGet]
  decide

theorem severity_filterMap_eq (counts : List (String × Nat)) :
    (severityOrder.filterMap (fun s =>
      let count := dictGet counts s
      if count > 0 then some ("  • " ++ s ++ ": " ++ toString count)
      else none)) =
    ((severityOrder.filter (fun s => decide (0 < dictGet counts s))).map
      (fun s => "  • " ++ s ++ ": " ++ toString (dictGet counts s))) := by
  induction severityOrder with
  | nil => rfl
  | cons a l ih =>
    by_cases h : 0 < dictGet counts a <;>
      simp [List.filterMap_cons, List.filter_cons, h, ih]

/-- C8 (amended): both textual summaries present the quality-gate status
(with its glyph in the chat-style one) and the five measures; the
chat-style summary lists exactly the severities with a non-zero count, in
the fixed order BLOCKER, CRITICAL, MAJOR, MINOR, INFO, while the
email-style summary lists all five severities in that order, including
those with a zero count. -/
theorem summaries_content (ffmt : Rat → String) (now : String) (r : Report) :
    (status_emoji r.quality_gate_status ++ " *Quality Gate Status:* " ++
      r.quality_gate_status) ∈ print_slack_summary ffmt r ∧
    ("📊 *Coverage:* " ++ ffmt r.measures.coverage ++ "%")
      ∈ print_slack_summary ffmt r ∧
    ("🐛 *Bugs:* " ++ toString r.measures.bugs)
      ∈ print_slack_summary ffmt r ∧
    ("🔒 *Vulnerabilities:* " ++ toString r.measures.vulnerabilities)
      ∈ print_slack_summary ffmt r ∧
    ("💨 *Code Smells:* " ++ toString r.measures.code_smells)
      ∈ print_slack_summary ffmt r ∧
    ("📋 *Duplicated Lines:* " ++ ffmt r.measures.duplicated_lines_density
      ++ "%") ∈ print_slack_summary ffmt r ∧
    ("Quality Gate Status: " ++ r.quality_gate_status)
      ∈ print_email_summary ffmt now r ∧
    ("  - Coverage: " ++ ffmt r.measures.coverage ++ "%")
      ∈ print_email_summary ffmt now r ∧
    ("  - Bugs: " ++ toString r.measures.bugs)
      ∈ print_email_summary ffmt now r ∧
    ("  - Vulnerabilities: " ++ toString r.measures.vulnerabilities)
      ∈ print_email_summary ffmt now r ∧
    ("  - Code Smells: " ++ toString r.measures.code_smells)
      ∈ print_email_summary ffmt now r ∧
    ("  - Duplicated Lines: " ++ ffmt r.measures.duplicated_lines_density
      ++ "%") ∈ print_email_summary ffmt now r ∧
    (∃ pre post, print_slack_summary ffmt r = pre ++
      ((severityOrder.filter
        (fun s => decide (0 < dictGet r.issues.severity_counts s))).map
        (fun s => "  • " ++ s ++ ": " ++
          toString (dictGet r.issues.severity_counts s))) ++ post) ∧
    (∃ pre post, print_email_summary ffmt now r = pre ++
      (severityOrder.map (fun s => "  - " ++ s ++ ": " ++
        toString (dictGet r.issues.severity_counts s))) ++ post) := by
  refine ⟨?_, ?_, ?_, ?_, ?_, ?_, ?_, ?_, ?_, ?_, ?_, ?_, ?_, ?_⟩
  · simp [print_slack_summary]
  · simp [print_slack_summary]
  · simp [print_slack_summary]
  · simp [print_slack_summary]
  · simp [print_slack_summary]
  · simp [print_slack_summary]
  · simp [print_email_summary]
  · simp [print_email_summary]
  · simp [print_email_summary]
  · simp [print_email_summary]
  · simp [print_email_summary]
  · simp [print_email_summary]
  · refine ⟨[ "\n" ++ repChar 60 '=', "📱 SLACK-FORMATTED SUMMARY",
      repChar 60 '=',
      status_emoji r.quality_gate_status ++ " *Quality Gate Status:* " ++
        r.quality_gate_status,
      "📊 *Coverage:* " ++ ffmt r.measures.coverage ++ "%",
      "🐛 *Bugs:* " ++ toString r.measures.bugs,
      "🔒 *Vulnerabilities:* " ++ toString r.measures.vulnerabilities,
      "💨 *Code Smells:* " ++ toString r.measures.code_smells,
      "📋 *Duplicated Lines:* " ++ ffmt r.measures.duplicated_lines_density
        ++ "%",
      "\n*Issues by Severity:*" ], [ repChar 60 '=' ++ "\n" ], ?_⟩
    rw [print_slack_summary, ← severity_filterMap_eq]
  · exact ⟨[ "\n" ++ repChar 60 '=', "📧 EMAIL-FORMATTED SUMMARY",
      repChar 60 '=',
      "Quality Gate Status: " ++ r.quality_gate_status,
      "Project: " ++ r.project_key,
      "Generated: " ++ now,
      "\nMetrics:",
      "  - Coverage: " ++ ffmt r.measures.coverage ++ "%",
      "  - Bugs: " ++ toString r.measures.bugs,
      "  - Vulnerabilities: " ++ toString r.measures.vulnerabilities,
      "  - Code Smells: " ++ toString r.measures.code_smells,
      "  - Duplicated Lines: " ++ ffmt r.measures.duplicated_lines_density
        ++ "%",
      "\nIssues by Severity:" ], [ repChar 60 '=' ++ "\n" ], rfl⟩

end FetchReport
